import Mathlib

/-!
Verification development for the two-agent greeting system
(Agent A "Greeter" in agent_a_greeter/greeter_agent.py and
Agent B "Caller" in agent_b_caller/caller_agent.py).

The Python sources are shallowly embedded as executable Lean functions:

* module-level mutable state (the set `greeting_ids` and the dict
  `greeting_history`) becomes an explicit `Registry` value threaded
  through the operations;
* the random id `"greeting_" + str(random.randint(1000000, 9999999))`
  becomes an explicit `greeting_id : String` parameter supplied by the
  caller of `create_greeting_form` (the RNG draw, made explicit);
* `httpx` network effects become an oracle `net : HttpRequest → NetResult`
  passed to the caller-agent functions, together with a returned trace of
  the requests actually issued;
* Python truthiness on optional string arguments (`None` and `""` are
  falsy) is captured by `pyOrStr`;
* all string manipulation is implemented structurally over `List Char`
  so that every definition evaluates inside the kernel.
-/

set_option maxHeartbeats 1000000

/-! ## Agent A (Greeter): form registry and greeting generation -/

/-- Python truthiness default for an optional string argument: the source
writes (default if not x else x), where both None and the empty string
are falsy. -/
def pyOrStr (v : Option String) (d : String) : String :=
  match v with
  | none => d
  | some s => if s = "" then d else s

/-- One stored greeting form, mirroring the dict built by
create_greeting_form (keys greeting_id, name, style, message). -/
structure FormData where
  greeting_id : String
  name : String
  style : String
  message : String
deriving DecidableEq

/-- The Greeter module state: the set greeting_ids and the dict
greeting_history from greeter_agent.py lines 13-15, made explicit. -/
structure Registry where
  greeting_ids : List String
  greeting_history : List (String × FormData)
deriving DecidableEq

/-- Python set.add: membership-preserving insertion. -/
def setAdd (x : String) (s : List String) : List String :=
  if x ∈ s then s else x :: s

/-- Python dict assignment d[k] = v: replace the binding if the key is
present, append it otherwise. -/
def dictSet {β : Type} (k : String) (v : β) : List (String × β) → List (String × β)
  | [] => [(k, v)]
  | (k2, v2) :: rest => if k2 = k then (k, v) :: rest else (k2, v2) :: dictSet k v rest

/-- Embedding of create_greeting_form (greeter_agent.py lines 18-47).
The generated random id is passed in as greeting_id; the function adds
it to greeting_ids, stores the form dict in greeting_history and
returns the form together with the updated state. -/
def create_greeting_form (reg : Registry) (greeting_id : String)
    (name style message : Option String) : FormData × Registry :=
  let form_data : FormData :=
    { greeting_id := greeting_id
      name := pyOrStr name "<person\x27s name>"
      style := pyOrStr style "<formal/casual/fun>"
      message := pyOrStr message "<optional custom message>" }
  (form_data,
   { greeting_ids := setAdd greeting_id reg.greeting_ids
     greeting_history := dictSet greeting_id form_data reg.greeting_history })

/-- The style dispatch of generate_greeting (lines 121-127): formal and
fun have fixed templates, every other style falls into the casual else
branch.  The fun template contains the exact four characters that the
source file stores between "!" and " Hope" (a mojibake-encoded party
popper: U+00F0 U+0178 U+017D U+2030). -/
def style_greeting (name style : String) : String :=
  if style = "formal" then
    "Good day, " ++ name ++ ". I hope this message finds you well."
  else if style = "fun" then
    "Hey there, " ++ name ++ "! ðŸŽ‰ Hope you\x27re having an awesome day!"
  else
    "Hello " ++ name ++ "! This is Agent A (Greeter) responding. I hope you\x27re having a wonderful day!"

/-- Lines 129-130 of generate_greeting: a truthy (non-empty) message is
appended to the greeting after a single space. -/
def apply_message (greeting message : String) : String :=
  if message = "" then greeting else greeting ++ " " ++ message

/-- The Greeting Resolver as a function of explicit name, style and
optional message (the body of generate_greeting lines 121-130 once the
stored fields are in hand); an absent message behaves as the empty
string, exactly as data.get("message", "") does. -/
def resolve_greeting (name style : String) (message : Option String) : String :=
  apply_message (style_greeting name style) (match message with | none => "" | some m => m)

/-- Result dict of generate_greeting: the invalid-id branch carries only
greeting_id and status (greeting and style are none); the delivered
branch carries all four keys. -/
structure GreetResult where
  greeting_id : String
  status : String
  greeting : Option String
  style : Option String
deriving DecidableEq

/-- Embedding of generate_greeting (greeter_agent.py lines 107-137).
The function only reads the module state, so the returned Registry is
the input state unchanged; it is threaded explicitly so that the frame
property is a statement rather than a convention. -/
def generate_greeting (reg : Registry) (greeting_id : String) : GreetResult × Registry :=
  if greeting_id ∉ reg.greeting_ids then
    ({ greeting_id := greeting_id, status := "Error: Invalid greeting_id.",
       greeting := none, style := none }, reg)
  else
    let data := reg.greeting_history.lookup greeting_id
    let name := match data with | some d => d.name | none => "Friend"
    let style := match data with | some d => d.style | none => "casual"
    let message := match data with | some d => d.message | none => ""
    let greeting := apply_message (style_greeting name style) message
    ({ greeting_id := greeting_id, status := "delivered",
       greeting := some greeting, style := some style }, reg)

/-- The Greeter non-form path for a simple request (the tool-call
pipeline the agent instruction prescribes for "Please greet NAME":
create_greeting_form(name=NAME, style="casual") immediately followed by
generate_greeting on the returned id).  The delivered greeting is the
content of the terminal Complete event of that path. -/
def greeter_simple_path (reg : Registry) (greeting_id name : String) : GreetResult :=
  let created := create_greeting_form reg greeting_id (some name) (some "casual") none
  (generate_greeting created.2 created.1.greeting_id).1

/-! ## Name/Intent Extractor (Caller, caller_agent.py lines 19-42)

The five regex patterns are specialized matchers over `List Char`.  In
each pattern the quantified classes are disjoint from what follows
them, so the greedy/lazy quantifier semantics collapse to maximal-munch
scans; `re.search` is the leftmost anchored attempt. -/

/-- Regex class \w (ASCII range: letters, digits, underscore). -/
def isWordChar (c : Char) : Bool := c.isAlphanum || c = '_'

/-- Regex class \s (ASCII whitespace range). -/
def isSpaceChar (c : Char) : Bool :=
  c = ' ' || c = '\t' || c = '\n' || c = '\r' || c = '\x0b' || c = '\x0c'

/-- Matches the tail \s+(\w+) at the head of the input: one or more
whitespace characters, then a captured run of at least one word
character.  No backtracking is needed because the classes are
disjoint. -/
def matchSpWord (cs : List Char) : Option (List Char) :=
  let sp := cs.takeWhile isSpaceChar
  if sp.isEmpty then none
  else
    let w := (cs.drop sp.length).takeWhile isWordChar
    if w.isEmpty then none else some w

/-- Pattern lit\s+(\w+) anchored at the head of the input. -/
def tryLitSpWord (lit cs : List Char) : Option (List Char) :=
  if lit.isPrefixOf cs then matchSpWord (cs.drop lit.length) else none

/-- Pattern l1\s+l2\s+(\w+) anchored at the head of the input. -/
def tryLit2SpWord (l1 l2 cs : List Char) : Option (List Char) :=
  if l1.isPrefixOf cs then
    let r1 := cs.drop l1.length
    let sp := r1.takeWhile isSpaceChar
    if sp.isEmpty then none
    else
      let r2 := r1.drop sp.length
      if l2.isPrefixOf r2 then matchSpWord (r2.drop l2.length) else none
  else none

/-- The maximal run of word characters ending the input: the capture of
a lazy .*? followed by the anchored (\w+)$. -/
def wordSuffix (cs : List Char) : List Char :=
  (cs.reverse.takeWhile isWordChar).reverse

/-- Pattern call.*?(\w+)$ anchored at the head: the literal call, then
anything, capturing the final word run of the remainder (inputs are
newline-free, so the dot class never blocks). -/
def tryCallEnd (cs : List Char) : Option (List Char) :=
  if ("call".data).isPrefixOf cs then
    let w := wordSuffix (cs.drop 4)
    if w.isEmpty then none else some w
  else none

/-- re.search: try the anchored matcher at every start position from
the left, returning the first capture found. -/
def reSearch (f : List Char → Option (List Char)) : List Char → Option (List Char)
  | [] => f []
  | c :: cs =>
    match f (c :: cs) with
    | some w => some w
    | none => reSearch f cs

/-- Python str.capitalize(): first character upper-cased, the rest
lower-cased (ASCII). -/
def pyCapitalize (w : List Char) : String :=
  match w with
  | [] => ""
  | c :: cs => String.mk (c.toUpper :: cs.map Char.toLower)

/-- Python str.lower() (ASCII). -/
def pyLower (s : String) : String := String.mk (s.data.map Char.toLower)

/-- Helper for pySplitWs: accumulate the current token (reversed) while
scanning. -/
def splitWsAux : List Char → List Char → List String
  | [], acc => if acc.isEmpty then [] else [String.mk acc.reverse]
  | c :: cs, acc =>
    if isSpaceChar c then
      if acc.isEmpty then splitWsAux cs []
      else String.mk acc.reverse :: splitWsAux cs []
    else splitWsAux cs (c :: acc)

/-- Python str.split() with no argument: split on whitespace runs and
discard empty pieces. -/
def pySplitWs (s : String) : List String := splitWsAux s.data []

/-- The stop list of role words excluded by the fallback scan. -/
def stop_words : List String := ["agent", "greeter", "caller"]

/-- The fallback of extract_name (lines 37-40): the first
whitespace-delimited token whose first character is upper-case, that is
longer than one character and whose lower-casing is not a stop word;
the token is returned as written (not capitalized). -/
def findCapWord : List String → Option String
  | [] => none
  | w :: ws =>
    if (w.data.headD ' ').isUpper && decide (w.length > 1)
        && !(stop_words.contains (pyLower w)) then some w
    else findCapWord ws

/-- Embedding of CallerAgent.extract_name (caller_agent.py lines
19-42): the five patterns tried in order against the lower-cased query,
then the capitalized-token fallback, and finally the literal default
"Someone". -/
def extract_name (query : String) : String :=
  let cs := (pyLower query).data
  match reSearch (tryLitSpWord "for".data) cs with
  | some w => pyCapitalize w
  | none =>
  match reSearch (tryLitSpWord "greet".data) cs with
  | some w => pyCapitalize w
  | none =>
  match reSearch (tryLit2SpWord "greeting".data "for".data) cs with
  | some w => pyCapitalize w
  | none =>
  match reSearch (tryLit2SpWord "hello".data "to".data) cs with
  | some w => pyCapitalize w
  | none =>
  match reSearch tryCallEnd cs with
  | some w => pyCapitalize w
  | none =>
  match findCapWord (pySplitWs query) with
  | some w => w
  | none => "Someone"

/-- Modelled from the spec: section 4.2 gives the extractor the contract
extract(query) -> string | none, with an ordered first-match pattern
pass and the capitalized-token fallback, but returning none when
nothing is found ("callers decide the default", the substitution of
"Friend"/"Someone" being per-agent policy outside the extractor).  The
pattern pass is instantiated with the code's own pattern list so that
the only difference under comparison is the final clause. -/
def extract_spec (query : String) : Option String :=
  let cs := (pyLower query).data
  match reSearch (tryLitSpWord "for".data) cs with
  | some w => some (pyCapitalize w)
  | none =>
  match reSearch (tryLitSpWord "greet".data) cs with
  | some w => some (pyCapitalize w)
  | none =>
  match reSearch (tryLit2SpWord "greeting".data "for".data) cs with
  | some w => some (pyCapitalize w)
  | none =>
  match reSearch (tryLit2SpWord "hello".data "to".data) cs with
  | some w => some (pyCapitalize w)
  | none =>
  match reSearch tryCallEnd cs with
  | some w => some (pyCapitalize w)
  | none => findCapWord (pySplitWs query)

/-! ## JSON values and the Python renderings the Caller uses -/

mutual
/-- A parsed JSON value (the result of response.json()); numbers are
modelled as integers, which covers every payload this system produces
(floats are out of the modelled range). -/
inductive JValue where
  | jnull
  | jbool (b : Bool)
  | jnum (n : Int)
  | jstr (s : String)
  | jarr (xs : JArray)
  | jobj (fs : JObject)
/-- A JSON array, as a specialized list so that the renderings below
stay structurally recursive. -/
inductive JArray where
  | anil
  | acons (v : JValue) (rest : JArray)
/-- A JSON object: insertion-ordered key/value pairs (Python dicts keep
insertion order, and parsed objects have unique keys). -/
inductive JObject where
  | onil
  | ocons (k : String) (v : JValue) (rest : JObject)
end

/-- Python dict lookup result.get(k) on a parsed JSON object. -/
def jget (k : String) : JObject → Option JValue
  | .onil => none
  | .ocons k2 v rest => if k2 = k then some v else jget k rest

/-- Lower-case hexadecimal digit. -/
def hexDigit (n : Nat) : Char :=
  if n < 10 then Char.ofNat (48 + n) else Char.ofNat (87 + n)

/-- Four-digit lower-case hexadecimal rendering of a code unit. -/
def hex4 (n : Nat) : String :=
  String.mk [hexDigit (n / 4096 % 16), hexDigit (n / 256 % 16),
             hexDigit (n / 16 % 16), hexDigit (n % 16)]

/-- json.dumps escaping of one character inside a double-quoted string;
the default ensure_ascii=True turns control and non-ASCII characters
into \uXXXX escapes (surrogate pairs above U+FFFF). -/
def jsonEscChar (c : Char) : String :=
  if c = '"' then "\\\""
  else if c = '\\' then "\\\\"
  else if c = '\n' then "\\n"
  else if c = '\t' then "\\t"
  else if c = '\r' then "\\r"
  else if c = '\x08' then "\\b"
  else if c = '\x0c' then "\\f"
  else if c.toNat < 32 then "\\u" ++ hex4 c.toNat
  else if c.toNat ≤ 126 then String.mk [c]
  else if c.toNat ≤ 65535 then "\\u" ++ hex4 c.toNat
  else
    let n := c.toNat - 65536
    "\\u" ++ hex4 (55296 + n / 1024) ++ "\\u" ++ hex4 (56320 + n % 1024)

/-- json.dumps rendering of a string literal. -/
def jsonQuote (s : String) : String :=
  "\"" ++ String.join (s.data.map jsonEscChar) ++ "\""

/-- The indentation prefix json.dumps(indent=2) puts at a nesting
level. -/
def indent2 (lvl : Nat) : String := String.mk (List.replicate (2 * lvl) ' ')

mutual
/-- json.dumps(v, indent=2): the layout the Python library produces,
with item separator ",", key separator ": ", one element per line and
the closing bracket at the parent level. -/
def jdumpsV (lvl : Nat) : JValue → String
  | .jnull => "null"
  | .jbool true => "true"
  | .jbool false => "false"
  | .jnum n => toString n
  | .jstr s => jsonQuote s
  | .jarr .anil => "[]"
  | .jarr xs => "[\n" ++ jdumpsArr (lvl + 1) xs ++ "\n" ++ indent2 lvl ++ "]"
  | .jobj .onil => "\x7b\x7d"
  | .jobj fs => "\x7b\n" ++ jdumpsObj (lvl + 1) fs ++ "\n" ++ indent2 lvl ++ "\x7d"
/-- Comma-and-newline separated array elements at the given level. -/
def jdumpsArr (lvl : Nat) : JArray → String
  | .anil => ""
  | .acons v .anil => indent2 lvl ++ jdumpsV lvl v
  | .acons v (.acons v2 rest) =>
      indent2 lvl ++ jdumpsV lvl v ++ ",\n" ++ jdumpsArr lvl (.acons v2 rest)
/-- Comma-and-newline separated object entries at the given level. -/
def jdumpsObj (lvl : Nat) : JObject → String
  | .onil => ""
  | .ocons k v .onil => indent2 lvl ++ jsonQuote k ++ ": " ++ jdumpsV lvl v
  | .ocons k v (.ocons k2 v2 rest) =>
      indent2 lvl ++ jsonQuote k ++ ": " ++ jdumpsV lvl v ++ ",\n" ++
        jdumpsObj lvl (.ocons k2 v2 rest)
end

/-- json.dumps(v, indent=2) at the top level. -/
def jdumps (v : JValue) : String := jdumpsV 0 v

/-- Python repr escaping of one character inside a quoted string, q
being the chosen quote character. -/
def pyReprEscChar (q c : Char) : String :=
  if c = '\\' then "\\\\"
  else if c = q then "\\" ++ String.mk [q]
  else if c = '\n' then "\\n"
  else if c = '\r' then "\\r"
  else if c = '\t' then "\\t"
  else String.mk [c]

/-- Python repr of a string: single quotes by default, double quotes
when the text contains a single quote but no double quote
(non-printing characters beyond the common escapes are outside the
modelled range). -/
def pyReprStr (s : String) : String :=
  let q := if s.data.contains '\x27' && !(s.data.contains '"') then '"' else '\x27'
  String.mk [q] ++ String.join (s.data.map (pyReprEscChar q)) ++ String.mk [q]

mutual
/-- Python repr of a parsed JSON value: None/True/False, plain
numbers, quoted strings, bracketed lists and braced dicts with
", " separators. -/
def pyReprV : JValue → String
  | .jnull => "None"
  | .jbool true => "True"
  | .jbool false => "False"
  | .jnum n => toString n
  | .jstr s => pyReprStr s
  | .jarr .anil => "[]"
  | .jarr xs => "[" ++ pyReprArr xs ++ "]"
  | .jobj .onil => "\x7b\x7d"
  | .jobj fs => "\x7b" ++ pyReprObj fs ++ "\x7d"
/-- Comma separated reprs of array elements. -/
def pyReprArr : JArray → String
  | .anil => ""
  | .acons v .anil => pyReprV v
  | .acons v (.acons v2 rest) => pyReprV v ++ ", " ++ pyReprArr (.acons v2 rest)
/-- Comma separated key: value reprs of object entries. -/
def pyReprObj : JObject → String
  | .onil => ""
  | .ocons k v .onil => pyReprStr k ++ ": " ++ pyReprV v
  | .ocons k v (.ocons k2 v2 rest) =>
      pyReprStr k ++ ": " ++ pyReprV v ++ ", " ++ pyReprObj (.ocons k2 v2 rest)
end

/-- Python str() / f-string conversion of a parsed JSON value: a string
is inserted bare, every other value through its repr. -/
def pyStr : JValue → String
  | .jstr s => s
  | v => pyReprV v

/-! ## Agent B (Caller): remote agent client and task stream -/

/-- One outbound POST to a peer: the url, the two JSON body fields and
the headers, exactly as assembled by the Python code. -/
structure HttpRequest where
  url : String
  query : String
  session_id : String
  headers : List (String × String)
deriving DecidableEq

/-- What httpx plus response.json() yields for one request: a response
carrying the status code, the raw body text and the outcome of parsing
the body as JSON (an Except, since .json() raises on malformed
bodies); a timeout; or any other exception, each with its str(e)
text. -/
inductive NetResult where
  | resp (status : Nat) (text : String) (jsonResult : Except String JValue)
  | timeout (msg : String)
  | exc (msg : String)

/-- The headers call_greeter_agent assembles: Content-Type always, and
a bearer Authorization header when a truthy CLERK_TOKEN is present
(lines 50-57; the custom branch of stream builds the same dict). -/
def greeter_headers (clerk_token : Option String) : List (String × String) :=
  [("Content-Type", "application/json")] ++
    (match clerk_token with
     | none => []
     | some t => if t = "" then [] else [("Authorization", "Bearer " ++ t)])

/-- The request call_greeter_agent posts for a name (lines 62-72). -/
def greet_request (agent_a_url : String) (clerk_token : Option String) (name : String) :
    HttpRequest :=
  { url := agent_a_url ++ "/process"
    query := "Please greet " ++ name
    session_id := "test-session"
    headers := greeter_headers clerk_token }

/-- Python's result.get("type") == "form" on a parsed JSON object:
true exactly when the key is present with the string "form". -/
def jTypeIsForm (fs : JObject) : Bool :=
  match jget "type" fs with
  | some (.jstr s) => s = "form"
  | _ => false

/-- The HTTP-200 branch of call_greeter_agent (lines 74-94): the form
notification first, then the field priority greeting, content,
response, then the pretty-printed whole body; a non-dict body is
reported through str(). -/
def handle_greeter_200 : JValue → String
  | .jobj fs =>
    if jTypeIsForm fs then
      "Agent A sent a form for customization:\n" ++ jdumps (.jobj fs)
    else
      match jget "greeting" fs with
      | some g =>
        "Agent A responded (ID: " ++ pyStr ((jget "greeting_id" fs).getD (.jstr "unknown")) ++
          ", Status: " ++ pyStr ((jget "status" fs).getD (.jstr "unknown")) ++ "):\n" ++ pyStr g
      | none =>
        match jget "content" fs with
        | some c => "Agent A responded: " ++ pyStr c
        | none =>
          match jget "response" fs with
          | some rv => "Agent A responded: " ++ pyStr rv
          | none => "Agent A responded with: " ++ jdumps (.jobj fs)
  | v => "Agent A responded: " ++ pyStr v

/-- Embedding of CallerAgent.call_greeter_agent (caller_agent.py lines
44-101).  The environment variables AGENT_A_URL and CLERK_TOKEN are
explicit arguments and the network is the oracle net; the second
component is the trace of requests actually issued, so an empty trace
means no network call was attempted. -/
def call_greeter_agent (agent_a_url clerk_token : Option String) (name : String)
    (net : HttpRequest → NetResult) : String × List HttpRequest :=
  match agent_a_url with
  | none => ("Error: AGENT_A_URL is not configured. Cannot call Agent A.", [])
  | some u =>
    if u = "" then ("Error: AGENT_A_URL is not configured. Cannot call Agent A.", [])
    else
      let req := greet_request u clerk_token name
      let report :=
        match net req with
        | .resp status text jsonResult =>
          if status = 200 then
            match jsonResult with
            | .ok result => handle_greeter_200 result
            | .error e => "Error calling Agent A: " ++ e
          else
            "Error calling Agent A: HTTP " ++ toString status ++ " - " ++ text
        | .timeout _ => "Error: Timeout while calling Agent A. The agent might be unavailable."
        | .exc e => "Error calling Agent A: " ++ e
      (report, [req])

/-- One item of the yielded task stream: the non-terminal processing
dict (is_task_complete = false, an updates text) or the terminal dict
(is_task_complete = true, a content text). -/
inductive TaskEvent where
  | progress (updates : String)
  | complete (content : String)
deriving DecidableEq

/-- CallerAgent.get_processing_message (lines 16-17). -/
def get_processing_message : String := "Calling the Greeter Agent..."

/-- Substring test, Python sub in s. -/
def containsSub (sub : List Char) : List Char → Bool
  | [] => sub.isEmpty
  | c :: cs => sub.isPrefixOf (c :: cs) || containsSub sub cs

/-- Embedding of CallerAgent.stream (caller_agent.py lines 103-169):
the initial processing event, then either the custom-greeting branch
(its own HTTP call with its own error handling, where a timeout is
caught by the generic except clause) or the standard flow through
call_greeter_agent; every path ends with exactly one terminal event. -/
def caller_stream (query session_id : String) (agent_a_url clerk_token : Option String)
    (net : HttpRequest → NetResult) : List TaskEvent :=
  let first := TaskEvent.progress get_processing_message
  if containsSub "custom".data (pyLower query).data then
    match agent_a_url with
    | none => [first, .complete "Error: AGENT_A_URL is not configured."]
    | some u =>
      if u = "" then [first, .complete "Error: AGENT_A_URL is not configured."]
      else
        let name := extract_name query
        let custom_query :=
          if name ≠ "" then "custom greeting for " ++ name else "custom greeting"
        let req : HttpRequest :=
          { url := u ++ "/process", query := custom_query, session_id := session_id
            headers := greeter_headers clerk_token }
        match net req with
        | .resp status text jsonResult =>
          if status = 200 then
            match jsonResult with
            | .ok result =>
              let body :=
                match result with
                | .jobj fs =>
                  if jTypeIsForm fs then
                    "Agent A provided a customization form:\n" ++ jdumps (.jobj fs)
                  else pyStr (.jobj fs)
                | v => pyStr v
              [first, .complete ("Demonstrating A2A communication with forms:\n" ++ body)]
            | .error e => [first, .complete ("Error calling Agent A: " ++ e)]
          else
            [first, .complete ("Error: HTTP " ++ toString status ++ " - " ++ text)]
        | .timeout e => [first, .complete ("Error calling Agent A: " ++ e)]
        | .exc e => [first, .complete ("Error calling Agent A: " ++ e)]
  else
    let name := extract_name query
    let response := (call_greeter_agent agent_a_url clerk_token name net).1
    [first, .complete ("Demonstrating A2A communication:\n" ++ response)]

/-- A sample enhanced-greeting body used to instantiate the response
handling theorems on a concrete 200 response. -/
def sampleGreetingBody : JObject :=
  .ocons "greeting" (.jstr "Hello John! This is Agent A (Greeter) responding.")
    (.ocons "status" (.jstr "delivered")
      (.ocons "greeting_id" (.jstr "greeting_1000000") .onil))

/-! ## Shared lemmas -/

theorem mem_setAdd_self (x : String) (s : List String) : x ∈ setAdd x s := by
  unfold setAdd; split
  · assumption
  · exact List.mem_cons_self x s

theorem lookup_dictSet {β : Type} (k : String) (v : β) (h : List (String × β)) :
    List.lookup k (dictSet k v h) = some v := by
  induction h with
  | nil => simp [dictSet, List.lookup]
  | cons p rest ih =>
    obtain ⟨k2, v2⟩ := p
    by_cases hk : k2 = k
    · simp [dictSet, hk, List.lookup]
    · simp [dictSet, hk, List.lookup, ih]
      rw [beq_eq_false_iff_ne.mpr (fun he => hk he.symm)]

/-- Resolving the id returned by a create_greeting_form call delivers
the greeting computed from the fields that call stored. -/
theorem generate_after_create (reg : Registry) (gid : String)
    (name style message : Option String) :
    (generate_greeting (create_greeting_form reg gid name style message).2 gid).1 =
      { greeting_id := gid, status := "delivered",
        greeting := some (apply_message
          (style_greeting (pyOrStr name "<person\x27s name>")
            (pyOrStr style "<formal/casual/fun>"))
          (pyOrStr message "<optional custom message>")),
        style := some (pyOrStr style "<formal/casual/fun>") } := by
  have hmem : gid ∈ (create_greeting_form reg gid name style message).2.greeting_ids :=
    mem_setAdd_self gid reg.greeting_ids
  have hlook : ((create_greeting_form reg gid name style message).2.greeting_history).lookup gid
      = some (create_greeting_form reg gid name style message).1 :=
    lookup_dictSet gid _ reg.greeting_history
  unfold generate_greeting
  rw [if_neg (not_not_intro hmem), hlook]
  rfl

/-! ## Claim theorems -/

/-- Claim C1, counterexample: on the Greeter non-form path for
"Please greet John" (create a casual greeting form for John, then
generate the greeting from the returned form id), the terminal content
is not the bare casual template claimed — the placeholder message
stored by create_greeting_form gets appended to it. -/
theorem c1_counterexample :
    (greeter_simple_path ⟨[], []⟩ "greeting_1234567" "John").greeting ≠
      some "Hello John! This is Agent A (Greeter) responding. I hope you\x27re having a wonderful day!" := by
  decide

/-- Claim C1 (amended): for every starting registry and generated id,
the non-form path for "Please greet John" yields a delivered terminal
content equal to the casual greeting for John with the stored
placeholder "<optional custom message>" appended after a single
space. -/
theorem c1_nonform_complete_content (reg : Registry) (gid : String) :
    (greeter_simple_path reg gid "John").status = "delivered" ∧
    (greeter_simple_path reg gid "John").greeting =
      some "Hello John! This is Agent A (Greeter) responding. I hope you\x27re having a wonderful day! <optional custom message>" := by
  have e : (create_greeting_form reg gid (some "John") (some "casual") none).1.greeting_id = gid :=
    rfl
  have h := generate_after_create reg gid (some "John") (some "casual") none
  simp only [greeter_simple_path]
  rw [e, h]
  exact ⟨rfl, rfl⟩

/-- Claim C2, counterexample: a formId stays valid after a successful
resolution — the second resolve of the same id is delivered again
instead of producing the invalid-form error result. -/
theorem c2_counterexample :
    (generate_greeting
        (create_greeting_form ⟨[], []⟩ "greeting_1000001" (some "Ann") none none).2
        "greeting_1000001").1.status = "delivered" ∧
    (generate_greeting
        (generate_greeting
          (create_greeting_form ⟨[], []⟩ "greeting_1000001" (some "Ann") none none).2
          "greeting_1000001").2
        "greeting_1000001").1.status = "delivered" ∧
    (generate_greeting
        (generate_greeting
          (create_greeting_form ⟨[], []⟩ "greeting_1000001" (some "Ann") none none).2
          "greeting_1000001").2
        "greeting_1000001").1.status ≠ "Error: Invalid greeting_id." := by
  refine ⟨by decide, by decide, by decide⟩

/-- Claim C2 (amended): resolving a formId never registered yields the
invalid-form error result and never a defaulted greeting, while a
successfully resolved formId stays valid — a second resolve returns
the same delivered result again rather than an error. -/
theorem c2_formid_validity (reg : Registry) (gid : String) :
    (gid ∉ reg.greeting_ids →
      generate_greeting reg gid =
        ({ greeting_id := gid, status := "Error: Invalid greeting_id.",
           greeting := none, style := none }, reg)) ∧
    ((generate_greeting reg gid).1.status = "delivered" →
      generate_greeting (generate_greeting reg gid).2 gid = generate_greeting reg gid) := by
  constructor
  · intro h
    unfold generate_greeting
    rw [if_pos h]
  · intro _
    have h2 : (generate_greeting reg gid).2 = reg := by
      unfold generate_greeting; split <;> rfl
    rw [h2]

/-- Claim C2 witness: both parts of the amended claim at concrete
inputs — an unregistered id resolves to the error result, and a
created id resolves to delivered twice with identical results. -/
theorem c2_witness :
    (generate_greeting ⟨[], []⟩ "greeting_4242424" =
      ({ greeting_id := "greeting_4242424", status := "Error: Invalid greeting_id.",
         greeting := none, style := none }, ⟨[], []⟩)) ∧
    (generate_greeting
        (generate_greeting
          (create_greeting_form ⟨[], []⟩ "greeting_1000001" (some "Ann") none none).2
          "greeting_1000001").2
        "greeting_1000001" =
      generate_greeting
        (create_greeting_form ⟨[], []⟩ "greeting_1000001" (some "Ann") none none).2
        "greeting_1000001") := by
  constructor
  · exact (c2_formid_validity ⟨[], []⟩ "greeting_4242424").1 (by decide)
  · exact (c2_formid_validity
      (create_greeting_form ⟨[], []⟩ "greeting_1000001" (some "Ann") none none).2
      "greeting_1000001").2 (by decide)

/-- Claim C3: createForm followed by resolve on the returned formId
yields a delivered result whose greeting is computed from the stored
name, style and message fields, while resolve on a never-created
formId returns a result carrying that same formId and the exact
status "Error: Invalid greeting_id." (a returned value, not a raised
fault). -/
theorem c3_create_resolve (reg : Registry) (gid : String)
    (name style message : Option String) (form : FormData) (reg2 : Registry)
    (hc : create_greeting_form reg gid name style message = (form, reg2)) :
    (generate_greeting reg2 form.greeting_id).1 =
      { greeting_id := gid, status := "delivered",
        greeting := some (apply_message (style_greeting form.name form.style) form.message),
        style := some form.style } ∧
    (gid ∉ reg.greeting_ids →
      generate_greeting reg gid =
        ({ greeting_id := gid, status := "Error: Invalid greeting_id.",
           greeting := none, style := none }, reg)) := by
  have h1 : form = (create_greeting_form reg gid name style message).1 := by rw [hc]
  have h2 : reg2 = (create_greeting_form reg gid name style message).2 := by rw [hc]
  subst h1; subst h2
  constructor
  · exact generate_after_create reg gid name style message
  · intro h
    unfold generate_greeting
    rw [if_pos h]

/-- Claim C3 witness: the round trip at a concrete registry, id and
field assignment, and the error result for a concrete unknown id. -/
theorem c3_witness :
    ((generate_greeting
        (create_greeting_form ⟨[], []⟩ "greeting_1000000" (some "Alex") none none).2
        (create_greeting_form ⟨[], []⟩ "greeting_1000000" (some "Alex") none none).1.greeting_id).1
      = { greeting_id := "greeting_1000000", status := "delivered",
          greeting := some (apply_message
            (style_greeting
              (create_greeting_form ⟨[], []⟩ "greeting_1000000" (some "Alex") none none).1.name
              (create_greeting_form ⟨[], []⟩ "greeting_1000000" (some "Alex") none none).1.style)
            (create_greeting_form ⟨[], []⟩ "greeting_1000000" (some "Alex") none none).1.message),
          style := some
            (create_greeting_form ⟨[], []⟩ "greeting_1000000" (some "Alex") none none).1.style }) ∧
    generate_greeting ⟨[], []⟩ "greeting_7777777" =
      ({ greeting_id := "greeting_7777777", status := "Error: Invalid greeting_id.",
         greeting := none, style := none }, ⟨[], []⟩) := by
  constructor
  · exact (c3_create_resolve ⟨[], []⟩ "greeting_1000000" (some "Alex") none none _ _ rfl).1
  · exact (c3_create_resolve ⟨[], []⟩ "greeting_7777777" (some "Alex") none none _ _ rfl).2
      (by decide)

/-- Claim C5: for every name, the formal resolution starts with
"Good day, name.", the fun resolution contains "Hey there, name!",
and every style outside the formal/casual/fun enumeration resolves
exactly as casual does instead of failing. -/
theorem c5_resolver_templates (name style : String) :
    (∃ t, resolve_greeting name "formal" none = ("Good day, " ++ name ++ ".") ++ t) ∧
    (∃ pre post, resolve_greeting name "fun" none =
        pre ++ ("Hey there, " ++ name ++ "!") ++ post) ∧
    (style ≠ "formal" → style ≠ "fun" → style ≠ "casual" →
      resolve_greeting name style none = resolve_greeting name "casual" none) := by
  refine ⟨⟨" I hope this message finds you well.", ?_⟩,
          ⟨"", " ðŸŽ‰ Hope you\x27re having an awesome day!", ?_⟩, ?_⟩
  · show ("Good day, " ++ name ++ ". I hope this message finds you well." : String) = _
    symm
    rw [String.append_assoc]
    rfl
  · show ("Hey there, " ++ name ++ "! ðŸŽ‰ Hope you\x27re having an awesome day!" : String) = _
    symm
    rw [String.empty_append, String.append_assoc]
    rfl
  · intro h1 h2 _
    show style_greeting name style = style_greeting name "casual"
    simp [style_greeting, h1, h2]

/-- Claim C5 witness: the three template properties at the concrete
name Alice with the out-of-enumeration style quirky. -/
theorem c5_witness :
    (∃ t, resolve_greeting "Alice" "formal" none = ("Good day, " ++ "Alice" ++ ".") ++ t) ∧
    (∃ pre post, resolve_greeting "Alice" "fun" none =
        pre ++ ("Hey there, " ++ "Alice" ++ "!") ++ post) ∧
    resolve_greeting "Alice" "quirky" none = resolve_greeting "Alice" "casual" none := by
  have h := c5_resolver_templates "Alice" "quirky"
  exact ⟨h.1, h.2.1, h.2.2 (by decide) (by decide) (by decide)⟩

/-- Claim C9: a form created without a custom message (argument absent
or empty, both falsy in the source) stores the non-empty placeholder
"<optional custom message>", and resolving that form's id appends the
placeholder to the style greeting after a single space. -/
theorem c9_placeholder_appended (reg : Registry) (gid : String)
    (name style message : Option String)
    (hm : message = none ∨ message = some "") :
    (create_greeting_form reg gid name style message).1.message =
      "<optional custom message>" ∧
    (generate_greeting (create_greeting_form reg gid name style message).2 gid).1.greeting =
      some (style_greeting (create_greeting_form reg gid name style message).1.name
              (create_greeting_form reg gid name style message).1.style
            ++ " " ++ "<optional custom message>") := by
  have hpm : pyOrStr message "<optional custom message>" = "<optional custom message>" := by
    rcases hm with rfl | rfl <;> rfl
  have h := generate_after_create reg gid name style message
  constructor
  · exact hpm
  · rw [h]
    show some (apply_message
        (style_greeting (pyOrStr name "<person\x27s name>") (pyOrStr style "<formal/casual/fun>"))
        (pyOrStr message "<optional custom message>")) = _
    rw [hpm]
    rfl

/-- Claim C9 witness: the placeholder behavior at a concrete creation
call with message = none. -/
theorem c9_witness :
    (create_greeting_form ⟨[], []⟩ "greeting_5555555" (some "Maria") (some "fun") none).1.message =
      "<optional custom message>" ∧
    (generate_greeting
        (create_greeting_form ⟨[], []⟩ "greeting_5555555" (some "Maria") (some "fun") none).2
        "greeting_5555555").1.greeting =
      some (style_greeting
              (create_greeting_form ⟨[], []⟩ "greeting_5555555" (some "Maria") (some "fun") none).1.name
              (create_greeting_form ⟨[], []⟩ "greeting_5555555" (some "Maria") (some "fun") none).1.style
            ++ " " ++ "<optional custom message>") :=
  c9_placeholder_appended ⟨[], []⟩ "greeting_5555555" (some "Maria") (some "fun") none (Or.inl rfl)

/-- Claim C10: generate_greeting never mutates the registry — the
post-state equals the pre-state for known and unknown ids alike — so
resolving the same id again returns the identical result. -/
theorem c10_resolve_frame (reg : Registry) (gid : String) :
    (generate_greeting reg gid).2 = reg ∧
    generate_greeting (generate_greeting reg gid).2 gid = generate_greeting reg gid := by
  have h2 : (generate_greeting reg gid).2 = reg := by
    unfold generate_greeting; split <;> rfl
  exact ⟨h2, by rw [h2]⟩

/-- Claim C4, counterexample: on the query "xyz" — which matches none
of the five patterns and has no capitalized token — the spec extractor
contract returns none, but the code's extract_name substitutes the
default "Someone" itself rather than leaving the default to the
caller. -/
theorem c4_counterexample :
    extract_spec "xyz" = none ∧ extract_name "xyz" = "Someone" := by
  exact ⟨by decide, by decide⟩

/-- Claim C4 (amended): whenever none of the five patterns matches the
lower-cased query and the capitalized-token fallback finds nothing,
extract_name returns the built-in default "Someone" (the defaulting
lives inside the extractor, not in its callers). -/
theorem c4_extractor_default (query : String)
    (h1 : reSearch (tryLitSpWord "for".data) (pyLower query).data = none)
    (h2 : reSearch (tryLitSpWord "greet".data) (pyLower query).data = none)
    (h3 : reSearch (tryLit2SpWord "greeting".data "for".data) (pyLower query).data = none)
    (h4 : reSearch (tryLit2SpWord "hello".data "to".data) (pyLower query).data = none)
    (h5 : reSearch tryCallEnd (pyLower query).data = none)
    (h6 : findCapWord (pySplitWs query) = none) :
    extract_name query = "Someone" := by
  simp only [extract_name, h1, h2, h3, h4, h5, h6]

/-- Claim C4 witness: the amended default behavior at the concrete
pattern-free, capital-free query "xyz". -/
theorem c4_witness : extract_name "xyz" = "Someone" :=
  c4_extractor_default "xyz" (by decide) (by decide) (by decide) (by decide)
    (by decide) (by decide)

/-- Claim C6: with AGENT_A_URL unset or empty, call_greeter_agent
returns the fixed configuration-error string and issues no request,
whatever the name, token and network behavior. -/
theorem c6_no_url_no_call (agent_a_url clerk_token : Option String) (name : String)
    (net : HttpRequest → NetResult)
    (h : agent_a_url = none ∨ agent_a_url = some "") :
    call_greeter_agent agent_a_url clerk_token name net =
      ("Error: AGENT_A_URL is not configured. Cannot call Agent A.", []) := by
  rcases h with rfl | rfl
  · rfl
  · rfl

/-- Claim C6 witness: the configuration-error result at a concrete
name, token and network oracle with the url unset. -/
theorem c6_witness :
    call_greeter_agent none (some "tok") "John" (fun _ => NetResult.timeout "t") =
      ("Error: AGENT_A_URL is not configured. Cannot call Agent A.", []) :=
  c6_no_url_no_call none (some "tok") "John" (fun _ => NetResult.timeout "t") (Or.inl rfl)

/-- Claim C8: for every query, session and environment, the non-LLM
caller stream is a finite sequence of exactly two events: one
non-terminal processing event followed by exactly one terminal
event. -/
theorem c8_stream_shape (query session_id : String) (agent_a_url clerk_token : Option String)
    (net : HttpRequest → NetResult) :
    ∃ content, caller_stream query session_id agent_a_url clerk_token net =
      [TaskEvent.progress "Calling the Greeter Agent...", TaskEvent.complete content] := by
  simp only [caller_stream]
  repeat' split
  all_goals exact ⟨_, rfl⟩

/-- Claim C7: on an HTTP 200 JSON object body, the report of
call_greeter_agent selects by first-match priority greeting, then
content, then response, then the whole pretty-printed body, each in
its prefixed human-readable wrapper (the greeting case carrying id and
status); a body typed as a form is instead formatted as the distinct
pretty-printed form notification. -/
theorem c7_response_priority (u : String) (clerk_token : Option String) (name : String)
    (net : HttpRequest → NetResult) (text : String) (fs : JObject)
    (hu : u ≠ "")
    (hnet : net (greet_request u clerk_token name) =
      NetResult.resp 200 text (.ok (.jobj fs))) :
    (jTypeIsForm fs = true →
      (call_greeter_agent (some u) clerk_token name net).1 =
        "Agent A sent a form for customization:\n" ++ jdumps (.jobj fs)) ∧
    (jTypeIsForm fs = false → ∀ g, jget "greeting" fs = some g →
      (call_greeter_agent (some u) clerk_token name net).1 =
        "Agent A responded (ID: " ++ pyStr ((jget "greeting_id" fs).getD (.jstr "unknown")) ++
          ", Status: " ++ pyStr ((jget "status" fs).getD (.jstr "unknown")) ++ "):\n" ++ pyStr g) ∧
    (jTypeIsForm fs = false → jget "greeting" fs = none → ∀ c, jget "content" fs = some c →
      (call_greeter_agent (some u) clerk_token name net).1 = "Agent A responded: " ++ pyStr c) ∧
    (jTypeIsForm fs = false → jget "greeting" fs = none → jget "content" fs = none →
      ∀ rv, jget "response" fs = some rv →
      (call_greeter_agent (some u) clerk_token name net).1 = "Agent A responded: " ++ pyStr rv) ∧
    (jTypeIsForm fs = false → jget "greeting" fs = none → jget "content" fs = none →
      jget "response" fs = none →
      (call_greeter_agent (some u) clerk_token name net).1 =
        "Agent A responded with: " ++ jdumps (.jobj fs)) := by
  have hrep : (call_greeter_agent (some u) clerk_token name net).1 =
      handle_greeter_200 (.jobj fs) := by
    simp only [call_greeter_agent, if_neg hu, hnet, if_true]
  refine ⟨?_, ?_, ?_, ?_, ?_⟩
  · intro hform
    rw [hrep]
    simp only [handle_greeter_200, hform, if_true]
  · intro hform g hg
    rw [hrep]
    simp only [handle_greeter_200, hform, Bool.false_eq_true, if_false, hg]
  · intro hform hg c hc
    rw [hrep]
    simp only [handle_greeter_200, hform, Bool.false_eq_true, if_false, hg, hc]
  · intro hform hg hc rv hr
    rw [hrep]
    simp only [handle_greeter_200, hform, Bool.false_eq_true, if_false, hg, hc, hr]
  · intro hform hg hc hr
    rw [hrep]
    simp only [handle_greeter_200, hform, Bool.false_eq_true, if_false, hg, hc, hr]

/-- Claim C7 witness: the greeting-priority case at a concrete url,
name, oracle and enhanced-greeting body. -/
theorem c7_witness :
    (call_greeter_agent (some "http://agent-a") none "John"
        (fun _ => NetResult.resp 200 "" (.ok (.jobj sampleGreetingBody)))).1 =
      "Agent A responded (ID: greeting_1000000, Status: delivered):\nHello John! This is Agent A (Greeter) responding." := by
  have h := (c7_response_priority "http://agent-a" none "John"
      (fun _ => NetResult.resp 200 "" (.ok (.jobj sampleGreetingBody))) "" sampleGreetingBody
      (by decide) rfl).2.1 rfl
      (.jstr "Hello John! This is Agent A (Greeter) responding.") rfl
  exact h.trans rfl
